import Mathlib

/-!
Shallow embedding of the conversation-lifecycle core of the AI-Chatbot
repository.

The authoritative source is the collection of stored procedures in
src/query.sql (tables users, sessions, events, conversation_costs, agents
and the functions create_or_get_session, log_event, set_session_category,
escalate_session, agent_takeover, get_session_history, log_api_cost),
together with the websocket client in
src/frontend/owner-dashboard/src/App.jsx (the onmessage switch and the
handleTakeover callback).

Modelling conventions:
- UUID values generated by gen_random_uuid() are modelled by a per-database
  counter nextId; each generated id is the current counter value and the
  counter is then incremented.
- TIMESTAMP values are natural numbers.  NOW() is constant for the whole
  duration of one procedure call (as in one SQL transaction), modelled by
  the clock field now of the database state.
- JSONB metadata documents are association lists of string pairs.
- DECIMAL cost amounts are modelled as integers (a fixed-point count of
  millionths of a dollar, matching DECIMAL(10,6)); no claim depends on
  fractional arithmetic.
- A PL/pgSQL function whose body can raise a foreign-key violation is
  modelled as returning Except: the error case corresponds to the raised
  exception aborting the transaction, so no partial state is returned.
- Postgres INT columns are 32-bit and raise an overflow error instead of
  wrapping; log_api_cost models this with an explicit range check.
-/

namespace ChatCore

/-- Row of the users table (src/query.sql lines 7-16). -/
structure UserRow where
  id : Nat
  channel : String
  channel_user_id : String
  name : Option String
  metadata : List (String × String)
  created_at : Nat
  last_seen_at : Nat
deriving DecidableEq

/-- Row of the sessions table (src/query.sql lines 22-34).  The status
column holds one of the strings active, resolved, escalated, closed. -/
structure SessionRow where
  id : Nat
  user_id : Nat
  channel : String
  selected_category : Option String
  category_selected_at : Option Nat
  status : String
  assigned_agent_id : Option String
  escalated_at : Option Nat
  resolved_at : Option Nat
  created_at : Nat
  updated_at : Nat
deriving DecidableEq

/-- Row of the events table (src/query.sql lines 42-50).  The table has no
sequence or position column: only id, session_id, type, sender, content,
metadata and created_at. -/
structure EventRow where
  id : Nat
  session_id : Nat
  type : String
  sender : String
  content : Option String
  metadata : List (String × String)
  created_at : Nat
deriving DecidableEq

/-- Row of the conversation_costs table (src/query.sql lines 62-73). -/
structure CostRow where
  id : Nat
  session_id : Nat
  event_id : Nat
  service : String
  model : Option String
  input_tokens : Int
  output_tokens : Int
  total_tokens : Int
  cost_usd : Int
  created_at : Nat
deriving DecidableEq

/-- Row of the agents table (src/query.sql lines 115-124). -/
structure AgentRow where
  id : String
  name : String
  status : String
  current_sessions : Int
  total_takeovers : Int
  created_at : Nat
  last_active_at : Nat
deriving DecidableEq

/-- The database state reached by the stored procedures, plus the id supply
and the transaction clock. -/
structure DB where
  users : List UserRow
  sessions : List SessionRow
  events : List EventRow
  costs : List CostRow
  agents : List AgentRow
  nextId : Nat
  now : Nat
deriving DecidableEq

/-- Errors raised by the procedures: a foreign-key violation on INSERT, or
a 32-bit integer overflow.  Either one aborts the enclosing transaction. -/
inductive SqlErr where
  | fkViolation
  | overflow
deriving DecidableEq

/-- Replace the transaction clock (a later call happens at a later time). -/
def withNow (db : DB) (t : Nat) : DB := { db with now := t }

/-- The unique key of the users table: UNIQUE(channel, channel_user_id). -/
def keyMatch (ch uid : String) (u : UserRow) : Bool :=
  u.channel == ch && u.channel_user_id == uid

/-- Look up a session row by primary key. -/
def sessionFor (db : DB) (sid : Nat) : Option SessionRow :=
  db.sessions.find? fun s => s.id == sid

/-- Look up an event row by primary key. -/
def eventFor (db : DB) (eid : Nat) : Option EventRow :=
  db.events.find? fun e => e.id == eid

/-- Look up an agent row by primary key. -/
def agentFor (db : DB) (aid : String) : Option AgentRow :=
  db.agents.find? fun a => a.id == aid

/-- SQL COALESCE on two nullable strings. -/
def coalesce (a b : Option String) : Option String :=
  match a with
  | some x => some x
  | none => b

/-- The row update performed by UPDATE sessions SET updated_at = NOW()
WHERE id = sid, as a function on one row. -/
def touchIfId (t : Nat) (sid : Nat) (s : SessionRow) : SessionRow :=
  if s.id == sid then { s with updated_at := t } else s

/-- UPDATE sessions SET updated_at = NOW() WHERE id = sid over the table. -/
def touchSession (t : Nat) (sid : Nat) (l : List SessionRow) : List SessionRow :=
  l.map (touchIfId t sid)

/-- The user upsert at the start of create_or_get_session (src/query.sql
lines 150-156):

  INSERT INTO users (channel, channel_user_id, name, last_seen_at)
  VALUES (p_channel, p_channel_user_id, p_user_name, NOW())
  ON CONFLICT (channel, channel_user_id)
  DO UPDATE SET last_seen_at = NOW(),
                name = COALESCE(EXCLUDED.name, users.name)
  RETURNING id

Note the argument order of COALESCE: the incoming name, when present,
replaces the stored one; the stored name survives only when the call
passes NULL. -/
def upsertUser (db : DB) (ch uid : String) (nm : Option String) : Nat × DB :=
  match db.users.find? (keyMatch ch uid) with
  | some u =>
      (u.id,
       { db with users := db.users.map fun w =>
           if keyMatch ch uid w then
             { w with last_seen_at := db.now, name := coalesce nm w.name }
           else w })
  | none =>
      (db.nextId,
       { db with
           users := db.users ++
             [{ id := db.nextId, channel := ch, channel_user_id := uid,
                name := nm, metadata := [], created_at := db.now,
                last_seen_at := db.now }],
           nextId := db.nextId + 1 })

/-- Is the session in one of the states reused by create_or_get_session
(status IN ('active', 'escalated'))? -/
def isLive (s : SessionRow) : Bool :=
  s.status == "active" || s.status == "escalated"

/-- ORDER BY created_at DESC LIMIT 1: keep the row with the largest
created_at; among equal timestamps the first row in storage order is kept
(the SQL leaves the choice among ties unspecified; this is one admissible
execution). -/
def pickRecent : List SessionRow → Option SessionRow
  | [] => none
  | s :: rest =>
      match pickRecent rest with
      | none => some s
      | some b => if b.created_at > s.created_at then some b else some s

/-- SELECT id FROM sessions WHERE user_id = u AND status IN
('active','escalated') ORDER BY created_at DESC LIMIT 1
(src/query.sql lines 159-164). -/
def findLive (l : List SessionRow) (u : Nat) : Option SessionRow :=
  pickRecent (l.filter fun s => s.user_id == u && isLive s)

/-- The row shape returned by create_or_get_session. -/
structure SessResult where
  session_id : Nat
  user_id : Nat
  selected_category : Option String
  status : String
deriving DecidableEq

/-- FUNCTION create_or_get_session (src/query.sql lines 134-188): upsert
the user, reuse the most recent active or escalated session of that user
if one exists, otherwise insert a fresh session with status active; then
bump updated_at of the chosen session and return its row.  The final
SELECT reads fields the preceding UPDATE does not modify, so the returned
projection is taken from the chosen row directly. -/
def create_or_get_session (db : DB) (ch uid : String) (nm : Option String) :
    SessResult × DB :=
  let p := upsertUser db ch uid nm
  match findLive p.2.sessions p.1 with
  | some s0 =>
      ({ session_id := s0.id, user_id := s0.user_id,
         selected_category := s0.selected_category, status := s0.status },
       { p.2 with sessions := touchSession p.2.now s0.id p.2.sessions })
  | none =>
      let newS : SessionRow :=
        { id := p.2.nextId, user_id := p.1, channel := ch,
          selected_category := none, category_selected_at := none,
          status := "active", assigned_agent_id := none,
          escalated_at := none, resolved_at := none,
          created_at := p.2.now, updated_at := p.2.now }
      ({ session_id := newS.id, user_id := p.1,
         selected_category := none, status := "active" },
       { p.2 with
           sessions := touchSession p.2.now newS.id (p.2.sessions ++ [newS]),
           nextId := p.2.nextId + 1 })

/-- FUNCTION log_event (src/query.sql lines 192-212): insert one event row
and bump updated_at of the owning session.  When the session does not
exist the INSERT raises a foreign-key violation and the transaction
aborts. -/
def log_event (db : DB) (sid : Nat) (ty sdr : String) (content : Option String)
    (md : List (String × String)) : Except SqlErr (Nat × DB) :=
  match sessionFor db sid with
  | none => Except.error SqlErr.fkViolation
  | some _ =>
      let ev : EventRow :=
        { id := db.nextId, session_id := sid, type := ty, sender := sdr,
          content := content, metadata := md, created_at := db.now }
      Except.ok (ev.id,
        { db with
            events := db.events ++ [ev],
            nextId := db.nextId + 1,
            sessions := touchSession db.now sid db.sessions })

/-- FUNCTION set_session_category (src/query.sql lines 216-231): a bare
UPDATE by id, with no condition on the session status; FOUND is true
exactly when the row exists. -/
def set_session_category (db : DB) (sid : Nat) (cat : String) : Bool × DB :=
  ((sessionFor db sid).isSome,
   { db with sessions := db.sessions.map fun s =>
       if s.id == sid then
         { s with selected_category := some cat,
                  category_selected_at := some db.now,
                  updated_at := db.now }
       else s })

/-- FUNCTION escalate_session (src/query.sql lines 235-254): an UPDATE by
id setting status to escalated (again with no condition on the current
status), followed by the INSERT of an escalation event.  In PL/pgSQL the
INSERT overwrites FOUND, so when the session exists the function returns
true; when it does not exist the INSERT raises a foreign-key violation
and the transaction aborts. -/
def escalate_session (db : DB) (sid : Nat) (reason : Option String) :
    Except SqlErr (Bool × DB) :=
  match sessionFor db sid with
  | none => Except.error SqlErr.fkViolation
  | some _ =>
      let db1 :=
        { db with sessions := db.sessions.map fun (s : SessionRow) =>
            if s.id == sid then
              { s with status := "escalated", escalated_at := some db.now,
                       updated_at := db.now }
            else s }
      let ev : EventRow :=
        { id := db1.nextId, session_id := sid, type := "escalation",
          sender := "system", content := reason, metadata := [],
          created_at := db.now }
      Except.ok (true,
        { db1 with events := db1.events ++ [ev], nextId := db1.nextId + 1 })

/-- FUNCTION agent_takeover (src/query.sql lines 258-291): an UPDATE of
the session by id alone (no condition on status or on the current
assignee), the INSERT of a takeover event, and an UPDATE of the agent
counters.  FOUND is overwritten by each statement, so the returned value
reflects only the final agents UPDATE: true exactly when the agent row
exists.  When the session does not exist the event INSERT raises a
foreign-key violation and the transaction aborts; when the agent does not
exist the function returns false, yet the session and events mutations
performed before stay in place. -/
def agent_takeover (db : DB) (sid : Nat) (aid : String) :
    Except SqlErr (Bool × DB) :=
  match sessionFor db sid with
  | none => Except.error SqlErr.fkViolation
  | some _ =>
      let db1 :=
        { db with sessions := db.sessions.map fun (s : SessionRow) =>
            if s.id == sid then
              { s with assigned_agent_id := some aid, updated_at := db.now }
            else s }
      let ev : EventRow :=
        { id := db1.nextId, session_id := sid, type := "takeover",
          sender := "system", content := some "Agent took over conversation",
          metadata := [("agent_id", aid)], created_at := db.now }
      let db2 :=
        { db1 with events := db1.events ++ [ev], nextId := db1.nextId + 1 }
      let fd := (agentFor db2 aid).isSome
      Except.ok (fd,
        { db2 with agents := db2.agents.map fun (a : AgentRow) =>
            if a.id == aid then
              { a with current_sessions := a.current_sessions + 1,
                       total_takeovers := a.total_takeovers + 1,
                       status := "busy", last_active_at := db.now }
            else a })

/-- Comparison used by ORDER BY created_at ASC. -/
def evLE (a b : EventRow) : Prop := a.created_at ≤ b.created_at

instance : DecidableRel evLE := fun a b =>
  inferInstanceAs (Decidable (a.created_at ≤ b.created_at))

instance : IsTotal EventRow evLE := ⟨fun a b => Nat.le_total a.created_at b.created_at⟩

instance : IsTrans EventRow evLE := ⟨fun _ _ _ h1 h2 => Nat.le_trans h1 h2⟩

/-- FUNCTION get_session_history (src/query.sql lines 295-321): the events
of one session ordered by created_at ascending, truncated to the limit.
The function has exactly two parameters beside the session id default; in
particular there is no cursor parameter, and the events table has no
per-session sequence column, so the order among equal timestamps is
whatever the storage produces (modelled here as storage order, one
admissible execution). -/
def get_session_history (db : DB) (sid : Nat) (lim : Nat) : List EventRow :=
  (List.insertionSort evLE (db.events.filter fun e => e.session_id == sid)).take lim

/-- The inclusive bounds of a Postgres INT column. -/
def inInt32 (n : Int) : Bool :=
  (-(2 ^ 31) : Int) ≤ n && n ≤ (2 ^ 31 - 1 : Int)

/-- FUNCTION log_api_cost (src/query.sql lines 325-362): insert one
conversation_costs row with total_tokens computed as
p_input_tokens + p_output_tokens, and return its id.  The body contains
no validation of the token signs or of the cost amount; the only failure
modes are the foreign keys on session_id and event_id and 32-bit INT
overflow of the token sum. -/
def log_api_cost (db : DB) (sid eid : Nat) (service : String)
    (model : Option String) (tin tout cost : Int) : Except SqlErr (Nat × DB) :=
  if !(inInt32 tin && inInt32 tout) then Except.error SqlErr.overflow
  else if !(inInt32 (tin + tout)) then Except.error SqlErr.overflow
  else
    match sessionFor db sid, eventFor db eid with
    | none, _ => Except.error SqlErr.fkViolation
    | _, none => Except.error SqlErr.fkViolation
    | some _, some _ =>
        let row : CostRow :=
          { id := db.nextId, session_id := sid, event_id := eid,
            service := service, model := model, input_tokens := tin,
            output_tokens := tout, total_tokens := tin + tout,
            cost_usd := cost, created_at := db.now }
        Except.ok (row.id,
          { db with costs := db.costs ++ [row], nextId := db.nextId + 1 })

/-- One entry of the pending-escalations list kept by the agent console.
The client code consults only the session_id field of the payload
(src/frontend/owner-dashboard/src/App.jsx lines 356-362 and 456). -/
structure Escalation where
  session_id : Nat
deriving DecidableEq

/-- A websocket protocol envelope as seen by the client: the type string
and the payload shapes the client destructures. -/
structure WsMsg where
  type : String
  listPayload : List Escalation
  escPayload : Option Escalation
  sidPayload : Option Nat
deriving DecidableEq

/-- The client state affected by protocol messages: the escalations list
(src/frontend/owner-dashboard/src/App.jsx line 261).  Notification and
sound side effects are not part of the state. -/
structure AgentClient where
  escalations : List Escalation
deriving DecidableEq

/-- The websocket onmessage switch of the agent console
(src/frontend/owner-dashboard/src/App.jsx lines 343-382).  Cases handled:
connected, initial_escalations, escalation (with a duplicate check on
session_id), takeover_success, pong, error.  Every other type string,
including escalation_removed, falls to the default branch which only logs
and leaves the state unchanged. -/
def handleWsMessage (st : AgentClient) (m : WsMsg) : AgentClient :=
  if m.type == "connected" then st
  else if m.type == "initial_escalations" then
    { st with escalations := m.listPayload }
  else if m.type == "escalation" then
    match m.escPayload with
    | some e =>
        if st.escalations.any (fun x => x.session_id == e.session_id) then st
        else { st with escalations := st.escalations ++ [e] }
    | none => st
  else if m.type == "takeover_success" then st
  else if m.type == "pong" then st
  else if m.type == "error" then st
  else st

/-- The local removal the acting agent performs after its own takeover
request succeeds (src/frontend/owner-dashboard/src/App.jsx line 456). -/
def removeAfterTakeover (st : AgentClient) (sid : Nat) : AgentClient :=
  { st with escalations := st.escalations.filter fun e => !(e.session_id == sid) }

/-- View of a takeover result: the returned boolean and the assignee of
the given session afterwards. -/
def takeoverView (r : Except SqlErr (Bool × DB)) (sid : Nat) :
    Option (Bool × Option (Option String)) :=
  r.toOption.map fun p => (p.1, (sessionFor p.2 sid).map fun s => s.assigned_agent_id)

/-- A registered agent. -/
def agentA1 : AgentRow :=
  { id := "A1", name := "Agent One", status := "online",
    current_sessions := 0, total_takeovers := 0, created_at := 0,
    last_active_at := 0 }

/-- A second registered agent. -/
def agentA2 : AgentRow :=
  { id := "A2", name := "Agent Two", status := "online",
    current_sessions := 0, total_takeovers := 0, created_at := 0,
    last_active_at := 0 }

/-- A user on the web channel. -/
def userU1 : UserRow :=
  { id := 0, channel := "web", channel_user_id := "u1", name := none,
    metadata := [], created_at := 1, last_seen_at := 1 }

/-- An escalated session that agent A1 already owns. -/
def dbTakenOver : DB :=
  { users := [userU1],
    sessions := [{ id := 1, user_id := 0, channel := "web",
                   selected_category := none, category_selected_at := none,
                   status := "escalated", assigned_agent_id := some "A1",
                   escalated_at := some 3, resolved_at := none,
                   created_at := 1, updated_at := 3 }],
    events := [], costs := [], agents := [agentA1, agentA2],
    nextId := 2, now := 9 }

/-- An active, never escalated session. -/
def dbActiveSess : DB :=
  { users := [userU1],
    sessions := [{ id := 1, user_id := 0, channel := "web",
                   selected_category := none, category_selected_at := none,
                   status := "active", assigned_agent_id := none,
                   escalated_at := none, resolved_at := none,
                   created_at := 1, updated_at := 1 }],
    events := [], costs := [], agents := [agentA1, agentA2],
    nextId := 2, now := 9 }

/-- A session in the terminal closed state. -/
def dbClosed : DB :=
  { users := [userU1],
    sessions := [{ id := 1, user_id := 0, channel := "web",
                   selected_category := none, category_selected_at := none,
                   status := "closed", assigned_agent_id := none,
                   escalated_at := none, resolved_at := some 4,
                   created_at := 1, updated_at := 4 }],
    events := [], costs := [], agents := [agentA1],
    nextId := 2, now := 9 }

/-- A user whose stored name is already set. -/
def dbNamed : DB :=
  { users := [{ id := 0, channel := "web", channel_user_id := "u1",
                name := some "Alice", metadata := [], created_at := 0,
                last_seen_at := 0 }],
    sessions := [], events := [], costs := [], agents := [],
    nextId := 1, now := 5 }

/-- The earlier of two events of session 1. -/
def evA : EventRow :=
  { id := 10, session_id := 1, type := "user_message", sender := "user",
    content := some "hi", metadata := [], created_at := 3 }

/-- The later of two events of session 1. -/
def evB : EventRow :=
  { id := 11, session_id := 1, type := "bot_message", sender := "bot",
    content := some "hello", metadata := [], created_at := 4 }

/-- A session with a two-event history. -/
def dbHist : DB :=
  { users := [userU1],
    sessions := [{ id := 1, user_id := 0, channel := "web",
                   selected_category := none, category_selected_at := none,
                   status := "active", assigned_agent_id := none,
                   escalated_at := none, resolved_at := none,
                   created_at := 1, updated_at := 4 }],
    events := [evA, evB], costs := [], agents := [],
    nextId := 12, now := 9 }

/-- The already escalated session of dbEsc. -/
def sEsc : SessionRow :=
  { id := 1, user_id := 0, channel := "web", selected_category := none,
    category_selected_at := none, status := "escalated",
    assigned_agent_id := none, escalated_at := some 5, resolved_at := none,
    created_at := 1, updated_at := 5 }

/-- A session that was escalated at time 5, now observed at time 9. -/
def dbEsc : DB :=
  { users := [userU1],
    sessions := [sEsc],
    events := [{ id := 10, session_id := 1, type := "escalation",
                 sender := "system", content := some "first", metadata := [],
                 created_at := 5 }],
    costs := [], agents := [agentA1],
    nextId := 11, now := 9 }

/-- The session row of dbCost. -/
def sCost : SessionRow :=
  { id := 1, user_id := 0, channel := "web", selected_category := none,
    category_selected_at := none, status := "active",
    assigned_agent_id := none, escalated_at := none, resolved_at := none,
    created_at := 1, updated_at := 3 }

/-- A session with one event, ready to receive cost records. -/
def dbCost : DB :=
  { users := [userU1],
    sessions := [sCost],
    events := [evA], costs := [], agents := [],
    nextId := 20, now := 7 }

/-- The single active session of dbW. -/
def sW : SessionRow :=
  { id := 1, user_id := 0, channel := "web", selected_category := none,
    category_selected_at := none, status := "active",
    assigned_agent_id := none, escalated_at := none, resolved_at := none,
    created_at := 2, updated_at := 2 }

/-- A known user with one active session. -/
def dbW : DB :=
  { users := [userU1],
    sessions := [sW],
    events := [], costs := [], agents := [],
    nextId := 2, now := 5 }

/-- The successful result of one concrete log_api_cost call on dbCost. -/
def costOut : Nat × DB :=
  match log_api_cost dbCost 1 10 "openai_completion" (some "gpt-4") 3 4 5 with
  | Except.ok p => p
  | Except.error _ => (0, dbCost)

/-- The session row inserted by create_or_get_session when the user has no
active or escalated session. -/
def freshRow (db : DB) (ch uid : String) (nm : Option String) : SessionRow :=
  { id := ((upsertUser db ch uid nm).2).nextId,
    user_id := (upsertUser db ch uid nm).1, channel := ch,
    selected_category := none, category_selected_at := none,
    status := "active", assigned_agent_id := none,
    escalated_at := none, resolved_at := none,
    created_at := db.now, updated_at := db.now }

/-- Claim C1: agent_takeover carries no precondition at all.  On a session
already assigned to agent A1 a takeover by A2 still returns true and
silently reassigns the session; on a session that is merely active (never
escalated) a takeover also returns true; and when the named agent does
not exist the call returns false yet still overwrites the assignee of the
session, so the failure is not side-effect free.  Each conjunct evaluates
the embedded agent_takeover of src/query.sql lines 258-291 on a concrete
database. -/
theorem takeover_no_precondition :
    takeoverView (agent_takeover dbTakenOver 1 "A2") 1 = some (true, some (some "A2"))
    ∧ takeoverView (agent_takeover dbActiveSess 1 "A2") 1 = some (true, some (some "A2"))
    ∧ takeoverView (agent_takeover dbTakenOver 1 "ghost") 1 = some (false, some (some "ghost")) :=
  ⟨rfl, rfl, rfl⟩

/-- Claim C2: no mutating procedure guards the terminal closed state.  On
a closed session, set_session_category returns true and stores the
category, escalate_session returns true and even moves the session back
to escalated, log_event appends an event, and agent_takeover returns true
and assigns an agent — while the claim demands that every one of these
fail and leave state unchanged. -/
theorem closed_session_mutable :
    (set_session_category dbClosed 1 "refund").1 = true
    ∧ (sessionFor (set_session_category dbClosed 1 "refund").2 1).map
        (fun s => s.selected_category) = some (some "refund")
    ∧ (escalate_session dbClosed 1 none).toOption.map
        (fun p => (p.1, (sessionFor p.2 1).map fun s => s.status))
        = some (true, some "escalated")
    ∧ (log_event dbClosed 1 "user_message" "user" (some "hi") []).isOk = true
    ∧ takeoverView (agent_takeover dbClosed 1 "A1") 1 = some (true, some (some "A1")) :=
  ⟨rfl, rfl, rfl, rfl, rfl⟩

/-- Claim C4, counterexample: the user upsert writes
COALESCE(EXCLUDED.name, users.name), so a non-null displayName replaces a
stored name instead of being merged only when the name was unset.  For a
user already named Alice, a call carrying Bob leaves the stored name Bob,
not Alice as the claim requires. -/
theorem upsert_overwrites_name :
    ((create_or_get_session dbNamed "web" "u1" (some "Bob")).2).users.map
      (fun u => u.name) = [some "Bob"]
    ∧ ¬ ((create_or_get_session dbNamed "web" "u1" (some "Bob")).2).users.map
      (fun u => u.name) = [some "Alice"] :=
  ⟨rfl, by decide⟩

/-- Claim C5, counterexample: get_session_history has no cursor parameter;
its only inputs are the session id and the limit, and it always returns
the leading events.  For a session whose history is the two events evA
and evB, no call whatsoever yields the second page [evB] alone, so a
reader that has already seen evA cannot resume without repeats. -/
theorem history_no_cursor :
    (¬ ∃ lim, get_session_history dbHist 1 lim = [evB])
    ∧ get_session_history dbHist 1 1 = [evA]
    ∧ get_session_history dbHist 1 2 = [evA, evB] := by
  refine ⟨?_, rfl, rfl⟩
  rintro ⟨lim, h⟩
  have e : get_session_history dbHist 1 lim = List.take lim [evA, evB] := rfl
  rw [e] at h
  match lim, h with
  | 0, h => exact absurd h (by decide)
  | 1, h => exact absurd h (by decide)
  | n + 2, h =>
      rw [List.take_succ_cons, List.take_succ_cons, List.take_nil] at h
      exact absurd h (by decide)

/-- Claim C6, counterexample: escalating an already escalated session is
not a no-op on the stored state.  On a session escalated at time 5,
calling escalate_session again at time 9 returns true but re-stamps
escalated_at to 9 and appends a second escalation event, so the session
row and the event ledger both change. -/
theorem escalate_restamps :
    (escalate_session dbEsc 1 (some "again")).toOption.map
      (fun p => (p.1, (sessionFor p.2 1).map (fun s => s.escalated_at), p.2.events.length))
      = some (true, some (some 9), 2)
    ∧ (escalate_session dbEsc 1 (some "again")).toOption.map
      (fun p => (sessionFor p.2 1, p.2.events.length))
      ≠ some (sessionFor dbEsc 1, dbEsc.events.length) := by
  exact ⟨rfl, by decide⟩

/-- Claim C8, counterexample: log_api_cost performs no validation of the
token counts or the cost amount.  A call with negative input and output
tokens and a cost of zero succeeds and stores the row verbatim, where the
claim requires an InvalidInput failure. -/
theorem cost_no_validation :
    (log_api_cost dbCost 1 10 "openai_completion" (some "gpt-4") (-3) (-4) 0).toOption.map
      (fun p => (p.1, p.2.costs.map fun c =>
        (c.input_tokens, c.output_tokens, c.total_tokens, c.cost_usd)))
      = some (20, [((-3 : Int), (-4 : Int), (-7 : Int), (0 : Int))]) :=
  rfl

/-- Claim C9, counterexample: the websocket client of the agent console
handles only connected, initial_escalations, escalation,
takeover_success, pong and error; an escalation_removed message reaches
the default branch and the pending list keeps the session, where the
claim requires the client to remove it. -/
theorem escalation_removed_not_handled :
    handleWsMessage { escalations := [{ session_id := 7 }] }
        { type := "escalation_removed", listPayload := [],
          escPayload := none, sidPayload := some 7 }
      = { escalations := [{ session_id := 7 }] }
    ∧ ({ escalations := [{ session_id := 7 }] } : AgentClient)
      ≠ { escalations := [] } :=
  ⟨rfl, by decide⟩

/-! Helper lemmas about the list primitives used by the procedures. -/

theorem find?_map_pres {α : Type} (g : α → α) (q : α → Bool)
    (hq : ∀ x, q (g x) = q x) :
    ∀ l : List α, (l.map g).find? q = (l.find? q).map g := by
  intro l
  induction l with
  | nil => rfl
  | cons x xs ih =>
      cases hx : q x with
      | true =>
          rw [List.map_cons, List.find?_cons_of_pos _ (by rw [hq]; exact hx),
            List.find?_cons_of_pos _ hx, Option.map_some']
      | false =>
          rw [List.map_cons, List.find?_cons_of_neg _ (by simp [hq, hx]),
            List.find?_cons_of_neg _ (by simp [hx]), ih]

theorem filter_map_pres {α : Type} (g : α → α) (q : α → Bool)
    (hq : ∀ x, q (g x) = q x) :
    ∀ l : List α, (l.map g).filter q = (l.filter q).map g := by
  intro l
  induction l with
  | nil => rfl
  | cons x xs ih =>
      rw [List.map_cons, List.filter_cons, List.filter_cons, hq]
      cases hx : q x with
      | true => rw [if_pos rfl, if_pos rfl, List.map_cons, ih]
      | false => simp only [Bool.false_eq_true, if_false, ih]

theorem find?_append_none {α : Type} (q : α → Bool) :
    ∀ l1 l2 : List α, l1.find? q = none → (l1 ++ l2).find? q = l2.find? q := by
  intro l1 l2 h
  induction l1 with
  | nil => rfl
  | cons x xs ih =>
      cases hx : q x with
      | true => rw [List.find?_cons_of_pos _ hx] at h; exact absurd h (by simp)
      | false =>
          rw [List.find?_cons_of_neg _ (by simp [hx])] at h
          rw [List.cons_append, List.find?_cons_of_neg _ (by simp [hx]), ih h]

theorem pickRecent_cons (s : SessionRow) (rest : List SessionRow) :
    pickRecent (s :: rest) =
      match pickRecent rest with
      | none => some s
      | some b => if b.created_at > s.created_at then some b else some s := rfl

theorem pickRecent_map (g : SessionRow → SessionRow)
    (hc : ∀ s, (g s).created_at = s.created_at) :
    ∀ l : List SessionRow, pickRecent (l.map g) = (pickRecent l).map g := by
  intro l
  induction l with
  | nil => rfl
  | cons s rest ih =>
      rw [List.map_cons, pickRecent_cons, pickRecent_cons, ih]
      cases hr : pickRecent rest with
      | none => rfl
      | some b =>
          show (if (g b).created_at > (g s).created_at then some (g b) else some (g s))
              = (if b.created_at > s.created_at then some b else some s).map g
          rw [hc, hc]
          by_cases hgt : b.created_at > s.created_at
          · rw [if_pos hgt, if_pos hgt, Option.map_some']
          · rw [if_neg hgt, if_neg hgt, Option.map_some']

theorem pickRecent_cons_isSome (s : SessionRow) (rest : List SessionRow) :
    (pickRecent (s :: rest)).isSome = true := by
  rw [pickRecent_cons]
  cases hr : pickRecent rest with
  | none => rfl
  | some b =>
      by_cases hgt : b.created_at > s.created_at
      · simp [hgt]
      · simp [hgt]

theorem pickRecent_eq_none {l : List SessionRow} (h : pickRecent l = none) :
    l = [] := by
  cases l with
  | nil => rfl
  | cons s rest =>
      exfalso
      have hs := pickRecent_cons_isSome s rest
      rw [h] at hs
      simp at hs

theorem touchIfId_id (t sid : Nat) (s : SessionRow) :
    (touchIfId t sid s).id = s.id := by
  unfold touchIfId; split <;> rfl

theorem touchIfId_user (t sid : Nat) (s : SessionRow) :
    (touchIfId t sid s).user_id = s.user_id := by
  unfold touchIfId; split <;> rfl

theorem touchIfId_status (t sid : Nat) (s : SessionRow) :
    (touchIfId t sid s).status = s.status := by
  unfold touchIfId; split <;> rfl

theorem touchIfId_created (t sid : Nat) (s : SessionRow) :
    (touchIfId t sid s).created_at = s.created_at := by
  unfold touchIfId; split <;> rfl

theorem findLive_map_pres (g : SessionRow → SessionRow)
    (hu : ∀ s, (g s).user_id = s.user_id)
    (hst : ∀ s, (g s).status = s.status)
    (hc : ∀ s, (g s).created_at = s.created_at)
    (l : List SessionRow) (u : Nat) :
    findLive (l.map g) u = (findLive l u).map g := by
  unfold findLive
  rw [filter_map_pres g _ (fun s => by rw [hu, isLive, isLive, hst]),
    pickRecent_map g hc]

theorem findLive_touch (t sid : Nat) (l : List SessionRow) (u : Nat) :
    findLive (touchSession t sid l) u = (findLive l u).map (touchIfId t sid) := by
  unfold touchSession
  exact findLive_map_pres _ (touchIfId_user t sid) (touchIfId_status t sid)
    (touchIfId_created t sid) l u

theorem touchSession_length (t k : Nat) (l : List SessionRow) :
    (touchSession t k l).length = l.length := List.length_map _ _

theorem coalesce_none (a : Option String) : coalesce a none = a := by
  cases a <;> rfl

theorem keyMatch_update (ch uid : String) (t : Nat) (nm : Option String)
    (w : UserRow) :
    keyMatch ch uid
      (if keyMatch ch uid w then
        { w with last_seen_at := t, name := coalesce nm w.name }
      else w) = keyMatch ch uid w := by
  by_cases h : keyMatch ch uid w
  · rw [if_pos h]; rfl
  · rw [if_neg h]

theorem upsertUser_state (db : DB) (ch uid : String) (nm : Option String) :
    ((upsertUser db ch uid nm).2).sessions = db.sessions
    ∧ ((upsertUser db ch uid nm).2).now = db.now
    ∧ ((upsertUser db ch uid nm).2).events = db.events
    ∧ ((upsertUser db ch uid nm).2).costs = db.costs
    ∧ ((upsertUser db ch uid nm).2).agents = db.agents := by
  cases h : db.users.find? (keyMatch ch uid) <;>
    simp [upsertUser, h]

theorem upsertUser_fst_of_found (db : DB) (ch uid : String) (nm : Option String)
    (u : UserRow) (h : db.users.find? (keyMatch ch uid) = some u) :
    (upsertUser db ch uid nm).1 = u.id := by
  simp [upsertUser, h]

theorem upsertUser_find (db : DB) (ch uid : String) (nm : Option String) :
    ∃ u, ((upsertUser db ch uid nm).2).users.find? (keyMatch ch uid) = some u
      ∧ u.id = (upsertUser db ch uid nm).1
      ∧ u.name = coalesce nm ((db.users.find? (keyMatch ch uid)).bind fun w => w.name)
      ∧ u.last_seen_at = db.now := by
  cases h : db.users.find? (keyMatch ch uid) with
  | some u0 =>
      refine ⟨{ u0 with last_seen_at := db.now, name := coalesce nm u0.name },
        ?_, ?_, ?_, rfl⟩
      · simp only [upsertUser, h]
        rw [find?_map_pres _ _ (keyMatch_update ch uid db.now nm), h,
          Option.map_some']
        rw [if_pos (List.find?_some h)]
      · rw [upsertUser_fst_of_found db ch uid nm u0 h]
      · rfl
  | none =>
      refine ⟨{ id := db.nextId, channel := ch, channel_user_id := uid,
                name := nm, metadata := [], created_at := db.now,
                last_seen_at := db.now }, ?_, ?_, ?_, rfl⟩
      · simp only [upsertUser, h]
        rw [find?_append_none _ _ _ h,
          List.find?_cons_of_pos _ (by simp [keyMatch])]
      · simp [upsertUser, h]
      · show nm = coalesce nm none
        rw [coalesce_none]

theorem cogs_users (db : DB) (ch uid : String) (nm : Option String) :
    ((create_or_get_session db ch uid nm).2).users
      = ((upsertUser db ch uid nm).2).users := by
  cases h : findLive ((upsertUser db ch uid nm).2).sessions
      (upsertUser db ch uid nm).1 <;>
    simp [create_or_get_session, h]

theorem cogs_found (db : DB) (ch uid : String) (nm : Option String)
    (s0 : SessionRow)
    (h : findLive db.sessions (upsertUser db ch uid nm).1 = some s0) :
    (create_or_get_session db ch uid nm).1 =
      { session_id := s0.id, user_id := s0.user_id,
        selected_category := s0.selected_category, status := s0.status }
    ∧ ((create_or_get_session db ch uid nm).2).sessions =
        touchSession db.now s0.id db.sessions := by
  have hs : ((upsertUser db ch uid nm).2).sessions = db.sessions :=
    (upsertUser_state db ch uid nm).1
  have hn : ((upsertUser db ch uid nm).2).now = db.now :=
    (upsertUser_state db ch uid nm).2.1
  have h' : findLive ((upsertUser db ch uid nm).2).sessions
      (upsertUser db ch uid nm).1 = some s0 := by rw [hs]; exact h
  constructor
  · simp [create_or_get_session, h']
  · simp [create_or_get_session, hs, hn, h]

theorem cogs_none (db : DB) (ch uid : String) (nm : Option String)
    (h : findLive db.sessions (upsertUser db ch uid nm).1 = none) :
    (create_or_get_session db ch uid nm).1 =
      { session_id := ((upsertUser db ch uid nm).2).nextId,
        user_id := (upsertUser db ch uid nm).1,
        selected_category := none, status := "active" }
    ∧ ((create_or_get_session db ch uid nm).2).sessions =
        touchSession db.now ((upsertUser db ch uid nm).2).nextId
          (db.sessions ++ [freshRow db ch uid nm]) := by
  have hs : ((upsertUser db ch uid nm).2).sessions = db.sessions :=
    (upsertUser_state db ch uid nm).1
  have hn : ((upsertUser db ch uid nm).2).now = db.now :=
    (upsertUser_state db ch uid nm).2.1
  have h' : findLive ((upsertUser db ch uid nm).2).sessions
      (upsertUser db ch uid nm).1 = none := by rw [hs]; exact h
  constructor
  · simp [create_or_get_session, h']
  · simp [create_or_get_session, hs, hn, h, freshRow]

theorem cogs_second (db : DB) (ch uid : String) (nm nm' : Option String)
    (t' : Nat) :
    (create_or_get_session (withNow (create_or_get_session db ch uid nm).2 t')
        ch uid nm').1.session_id
      = (create_or_get_session db ch uid nm).1.session_id
    ∧ ((create_or_get_session (withNow (create_or_get_session db ch uid nm).2 t')
        ch uid nm').2).sessions.length
      = ((create_or_get_session db ch uid nm).2).sessions.length := by
  obtain ⟨u, hufind, huid, -, -⟩ := upsertUser_find db ch uid nm
  have h2find : (withNow (create_or_get_session db ch uid nm).2 t').users.find?
      (keyMatch ch uid) = some u := by
    show ((create_or_get_session db ch uid nm).2).users.find? (keyMatch ch uid)
        = some u
    rw [cogs_users db ch uid nm]; exact hufind
  have h2fst : (upsertUser (withNow (create_or_get_session db ch uid nm).2 t')
      ch uid nm').1 = (upsertUser db ch uid nm).1 := by
    rw [upsertUser_fst_of_found _ ch uid nm' u h2find, huid]
  cases h : findLive db.sessions (upsertUser db ch uid nm).1 with
  | some s0 =>
      obtain ⟨hr1, hs1⟩ := cogs_found db ch uid nm s0 h
      have hfl2 : findLive (withNow (create_or_get_session db ch uid nm).2 t').sessions
          (upsertUser (withNow (create_or_get_session db ch uid nm).2 t') ch uid nm').1
          = some (touchIfId db.now s0.id s0) := by
        show findLive ((create_or_get_session db ch uid nm).2).sessions
            (upsertUser (withNow (create_or_get_session db ch uid nm).2 t') ch uid nm').1
          = some (touchIfId db.now s0.id s0)
        rw [h2fst, hs1, findLive_touch, h, Option.map_some']
      obtain ⟨hr2, hs2⟩ := cogs_found
        (withNow (create_or_get_session db ch uid nm).2 t') ch uid nm'
        (touchIfId db.now s0.id s0) hfl2
      constructor
      · rw [hr2, hr1]
        show (touchIfId db.now s0.id s0).id = s0.id
        exact touchIfId_id _ _ _
      · rw [hs2, touchSession_length]
        rfl
  | none =>
      obtain ⟨hr1, hs1⟩ := cogs_none db ch uid nm h
      have hfilter : db.sessions.filter
          (fun s => s.user_id == (upsertUser db ch uid nm).1 && isLive s) = [] :=
        pickRecent_eq_none h
      have hone : findLive (db.sessions ++ [freshRow db ch uid nm])
          (upsertUser db ch uid nm).1 = some (freshRow db ch uid nm) := by
        unfold findLive
        rw [List.filter_append, hfilter, List.nil_append]
        simp [freshRow, isLive, List.filter, pickRecent]
      have hfl2 : findLive (withNow (create_or_get_session db ch uid nm).2 t').sessions
          (upsertUser (withNow (create_or_get_session db ch uid nm).2 t') ch uid nm').1
          = some (touchIfId db.now ((upsertUser db ch uid nm).2).nextId
              (freshRow db ch uid nm)) := by
        show findLive ((create_or_get_session db ch uid nm).2).sessions
            (upsertUser (withNow (create_or_get_session db ch uid nm).2 t') ch uid nm').1
          = some (touchIfId db.now ((upsertUser db ch uid nm).2).nextId
              (freshRow db ch uid nm))
        rw [h2fst, hs1, findLive_touch, hone, Option.map_some']
      obtain ⟨hr2, hs2⟩ := cogs_found
        (withNow (create_or_get_session db ch uid nm).2 t') ch uid nm'
        (touchIfId db.now ((upsertUser db ch uid nm).2).nextId
          (freshRow db ch uid nm)) hfl2
      constructor
      · rw [hr2, hr1]
        show (touchIfId db.now ((upsertUser db ch uid nm).2).nextId
            (freshRow db ch uid nm)).id = ((upsertUser db ch uid nm).2).nextId
        rw [touchIfId_id]
        rfl
      · rw [hs2, touchSession_length]
        rfl

theorem find?_id_map (g : SessionRow → SessionRow)
    (hid : ∀ s, (g s).id = s.id) (l : List SessionRow) (sid : Nat) :
    (l.map g).find? (fun s => s.id == sid)
      = (l.find? (fun s => s.id == sid)).map g :=
  find?_map_pres g (fun s => s.id == sid) (fun s => by simp only [hid]) l

/-- Claim C3: while a user has a session with status active or escalated,
create_or_get_session returns the id of the most recent such session and
inserts no new session; a fresh session (with status active) is inserted
only when no such session exists; and a repeated call on the resulting
database, at any later time and with any display name, returns the same
session id and leaves the session count unchanged. -/
theorem create_or_get_session_idem (db : DB) (ch uid : String)
    (nm nm' : Option String) (t' : Nat) :
    (∀ s0, findLive db.sessions (upsertUser db ch uid nm).1 = some s0 →
        (create_or_get_session db ch uid nm).1.session_id = s0.id
        ∧ ((create_or_get_session db ch uid nm).2).sessions.length
            = db.sessions.length)
    ∧ (findLive db.sessions (upsertUser db ch uid nm).1 = none →
        (create_or_get_session db ch uid nm).1.status = "active"
        ∧ ((create_or_get_session db ch uid nm).2).sessions.length
            = db.sessions.length + 1)
    ∧ (create_or_get_session (withNow (create_or_get_session db ch uid nm).2 t')
          ch uid nm').1.session_id
        = (create_or_get_session db ch uid nm).1.session_id
    ∧ ((create_or_get_session (withNow (create_or_get_session db ch uid nm).2 t')
          ch uid nm').2).sessions.length
        = ((create_or_get_session db ch uid nm).2).sessions.length := by
  refine ⟨?_, ?_, (cogs_second db ch uid nm nm' t').1,
    (cogs_second db ch uid nm nm' t').2⟩
  · intro s0 h
    obtain ⟨hr, hs⟩ := cogs_found db ch uid nm s0 h
    exact ⟨by rw [hr], by rw [hs, touchSession_length]⟩
  · intro h
    obtain ⟨hr, hs⟩ := cogs_none db ch uid nm h
    refine ⟨by rw [hr], ?_⟩
    rw [hs, touchSession_length, List.length_append]
    rfl

/-- Witness for claim C3: on a concrete database holding one active
session, create_or_get_session returns that session and adds nothing. -/
theorem create_or_get_session_idem_w :
    findLive dbW.sessions (upsertUser dbW "web" "u1" none).1 = some sW
    ∧ (create_or_get_session dbW "web" "u1" none).1.session_id = sW.id
    ∧ ((create_or_get_session dbW "web" "u1" none).2).sessions.length
        = dbW.sessions.length :=
  ⟨by decide,
   ((create_or_get_session_idem dbW "web" "u1" none none 7).1 sW (by decide)).1,
   ((create_or_get_session_idem dbW "web" "u1" none none 7).1 sW (by decide)).2⟩

/-- Claim C4 (amended): create_or_get_session always stamps last_seen to
the call time, and the stored name afterwards is the incoming displayName
whenever one is provided, falling back to the previously stored name only
when the call passes none — the opposite precedence of the claim, which
expected an existing name to survive. -/
theorem upsert_name_semantics (db : DB) (ch uid : String) (nm : Option String) :
    ∃ u, ((create_or_get_session db ch uid nm).2).users.find? (keyMatch ch uid)
        = some u
      ∧ u.name = coalesce nm
          ((db.users.find? (keyMatch ch uid)).bind fun w => w.name)
      ∧ u.last_seen_at = db.now := by
  obtain ⟨u, hfind, -, hname, hseen⟩ := upsertUser_find db ch uid nm
  exact ⟨u, by rw [cogs_users]; exact hfind, hname, hseen⟩

/-- Claim C6 (amended): escalating an already escalated session returns
true and keeps the status escalated, but it is not a stored-state no-op:
escalated_at and updated_at are re-stamped to the call time and one more
escalation event is appended to the ledger.  The websocket client of the
agent console de-duplicates escalation notifications by session id, so
the pending list keeps a single entry for the session. -/
theorem escalate_idem_dedup (db : DB) (sid : Nat) (r : Option String)
    (s : SessionRow) (h1 : sessionFor db sid = some s)
    (h2 : s.status = "escalated") :
    (∃ db', escalate_session db sid r = Except.ok (true, db')
       ∧ (sessionFor db' sid).map (fun w => w.status) = some "escalated"
       ∧ (sessionFor db' sid).map (fun w => w.escalated_at)
           = some (some db.now)
       ∧ db'.events.length = db.events.length + 1)
    ∧ (∀ (st : AgentClient) (lp : List Escalation) (sp : Option Nat)
          (e : Escalation),
        st.escalations.any (fun x => x.session_id == e.session_id) = true →
        handleWsMessage st
          { type := "escalation", listPayload := lp,
            escPayload := some e, sidPayload := sp } = st) := by
  have h1' : db.sessions.find? (fun w => w.id == sid) = some s := h1
  have hq : (s.id == sid) = true := by simpa using List.find?_some h1'
  have hgid : ∀ w : SessionRow,
      ((fun (w : SessionRow) =>
        if w.id == sid then
          { w with status := "escalated", escalated_at := some db.now,
                   updated_at := db.now }
        else w) w).id = w.id := by
    intro w; dsimp only; split <;> rfl
  constructor
  · refine
      ⟨({ db with
          sessions := db.sessions.map fun (w : SessionRow) =>
            if w.id == sid then
              { w with status := "escalated", escalated_at := some db.now,
                       updated_at := db.now }
            else w,
          events := db.events ++
            [{ id := db.nextId, session_id := sid, type := "escalation",
               sender := "system", content := r, metadata := [],
               created_at := db.now }],
          nextId := db.nextId + 1 } : DB), ?_, ?_, ?_, ?_⟩
    · simp [escalate_session, h1]
    · show (((db.sessions.map fun (w : SessionRow) =>
          if w.id == sid then
            { w with status := "escalated", escalated_at := some db.now,
                     updated_at := db.now }
          else w).find? (fun w => w.id == sid)).map
            (fun w => w.status)) = some "escalated"
      rw [find?_id_map _ hgid, h1', Option.map_some', Option.map_some']
      show some ((if s.id == sid then
          { s with status := "escalated", escalated_at := some db.now,
                   updated_at := db.now }
        else s).status) = some "escalated"
      rw [if_pos hq]
    · show (((db.sessions.map fun (w : SessionRow) =>
          if w.id == sid then
            { w with status := "escalated", escalated_at := some db.now,
                     updated_at := db.now }
          else w).find? (fun w => w.id == sid)).map
            (fun w => w.escalated_at)) = some (some db.now)
      rw [find?_id_map _ hgid, h1', Option.map_some', Option.map_some']
      show some ((if s.id == sid then
          { s with status := "escalated", escalated_at := some db.now,
                   updated_at := db.now }
        else s).escalated_at) = some (some db.now)
      rw [if_pos hq]
    · show (db.events ++
          [({ id := db.nextId, session_id := sid, type := "escalation",
              sender := "system", content := r, metadata := [],
              created_at := db.now } : EventRow)]).length
        = db.events.length + 1
      rw [List.length_append]
      rfl
  · intro st lp sp e he
    have hred : handleWsMessage st
        { type := "escalation", listPayload := lp,
          escPayload := some e, sidPayload := sp }
        = if st.escalations.any (fun x => x.session_id == e.session_id) then st
          else { st with escalations := st.escalations ++ [e] } := rfl
    rw [hred, if_pos he]

/-- Witness for claim C6: repeating the escalation of the already
escalated session of dbEsc returns true, keeps the status escalated,
re-stamps escalated_at to the call time and appends one more event. -/
theorem escalate_idem_dedup_w :
    ∃ db', escalate_session dbEsc 1 (some "again") = Except.ok (true, db')
      ∧ (sessionFor db' 1).map (fun w => w.status) = some "escalated"
      ∧ (sessionFor db' 1).map (fun w => w.escalated_at)
          = some (some dbEsc.now)
      ∧ db'.events.length = dbEsc.events.length + 1 :=
  (escalate_idem_dedup dbEsc 1 (some "again") sEsc (by decide) (by decide)).1

/-- Claim C7: log_event of src/query.sql lines 192-212 either fails with
a foreign-key violation when the session does not exist (writing
nothing), or appends exactly one event row, returns its id, bumps
updated_at of the owning session, and touches no other table. -/
theorem log_event_spec (db : DB) (sid : Nat) (ty sdr : String)
    (c : Option String) (md : List (String × String)) :
    (sessionFor db sid = none →
       log_event db sid ty sdr c md = Except.error SqlErr.fkViolation)
    ∧ (∀ s, sessionFor db sid = some s →
        ∃ db', log_event db sid ty sdr c md = Except.ok (db.nextId, db')
          ∧ db'.events = db.events ++
              [{ id := db.nextId, session_id := sid, type := ty,
                 sender := sdr, content := c, metadata := md,
                 created_at := db.now }]
          ∧ (sessionFor db' sid).map (fun w => w.updated_at) = some db.now
          ∧ db'.users = db.users ∧ db'.costs = db.costs
          ∧ db'.agents = db.agents) := by
  constructor
  · intro h; simp [log_event, h]
  · intro s h
    have h1' : db.sessions.find? (fun w => w.id == sid) = some s := h
    refine ⟨{ db with
        events := db.events ++
          [{ id := db.nextId, session_id := sid, type := ty, sender := sdr,
             content := c, metadata := md, created_at := db.now }],
        nextId := db.nextId + 1,
        sessions := touchSession db.now sid db.sessions },
      ?_, rfl, ?_, rfl, rfl, rfl⟩
    · simp [log_event, h]
    · show (((touchSession db.now sid db.sessions).find?
          (fun w => w.id == sid)).map (fun w => w.updated_at)) = some db.now
      unfold touchSession
      rw [find?_id_map _ (touchIfId_id db.now sid), h1', Option.map_some',
        Option.map_some']
      show some ((touchIfId db.now sid s).updated_at) = some db.now
      unfold touchIfId
      rw [if_pos (show (s.id == sid) = true by simpa using List.find?_some h1')]

/-- Witness for claim C7: appending an event to the existing session of
dbCost inserts exactly one event row and bumps updated_at. -/
theorem log_event_spec_w :
    ∃ db', log_event dbCost 1 "user_message" "user" (some "x") []
        = Except.ok (dbCost.nextId, db')
      ∧ db'.events = dbCost.events ++
          [{ id := dbCost.nextId, session_id := 1, type := "user_message",
             sender := "user", content := some "x", metadata := [],
             created_at := dbCost.now }]
      ∧ (sessionFor db' 1).map (fun w => w.updated_at) = some dbCost.now
      ∧ db'.users = dbCost.users ∧ db'.costs = dbCost.costs
      ∧ db'.agents = dbCost.agents :=
  (log_event_spec dbCost 1 "user_message" "user" (some "x") []).2 sCost
    (by decide)

/-- Claim C5 (amended): get_session_history returns only events of the
requested session, ordered by non-decreasing created_at, at most limit of
them; every call returns the leading elements of the same ordered list
(the call with a larger limit extends the smaller one), so pagination can
only re-read from the start — there is no cursor parameter; and with a
large enough limit the result holds exactly the events of the session. -/
theorem get_session_history_spec (db : DB) (sid : Nat) (lim lim2 : Nat)
    (h : lim ≤ lim2) :
    (get_session_history db sid lim).length ≤ lim
    ∧ (∀ e, e ∈ get_session_history db sid lim → e.session_id = sid)
    ∧ List.Pairwise evLE (get_session_history db sid lim)
    ∧ get_session_history db sid lim = (get_session_history db sid lim2).take lim
    ∧ (∀ e, e ∈ get_session_history db sid
          ((db.events.filter fun x => x.session_id == sid).length)
        ↔ (e ∈ db.events ∧ e.session_id = sid)) := by
  refine ⟨?_, ?_, ?_, ?_, ?_⟩
  · exact List.length_take_le _ _
  · intro e he
    have h1 : e ∈ List.insertionSort evLE
        (db.events.filter fun x => x.session_id == sid) :=
      List.take_subset _ _ he
    have h2 : e ∈ db.events.filter fun x => x.session_id == sid :=
      (List.perm_insertionSort evLE _).mem_iff.mp h1
    have h3 := List.mem_filter.mp h2
    simpa using h3.2
  · exact List.Pairwise.sublist (List.take_sublist _ _)
      (List.sorted_insertionSort evLE _)
  · show (List.insertionSort evLE
        (db.events.filter fun x => x.session_id == sid)).take lim
      = ((List.insertionSort evLE
          (db.events.filter fun x => x.session_id == sid)).take lim2).take lim
    rw [List.take_take, Nat.min_eq_left h]
  · intro e
    have hlen : (List.insertionSort evLE
        (db.events.filter fun x => x.session_id == sid)).length
        = (db.events.filter fun x => x.session_id == sid).length :=
      (List.perm_insertionSort evLE _).length_eq
    show e ∈ (List.insertionSort evLE
        (db.events.filter fun x => x.session_id == sid)).take
          ((db.events.filter fun x => x.session_id == sid).length)
      ↔ (e ∈ db.events ∧ e.session_id = sid)
    rw [← hlen, List.take_length]
    constructor
    · intro he
      have h2 := List.mem_filter.mp ((List.perm_insertionSort evLE _).mem_iff.mp he)
      exact ⟨h2.1, by simpa using h2.2⟩
    · rintro ⟨hmem, heq⟩
      exact (List.perm_insertionSort evLE _).mem_iff.mpr
        (List.mem_filter.mpr ⟨hmem, by simp [heq]⟩)

/-- Witness for claim C5: on the concrete two-event history of dbHist,
the one-element page is the first element of the two-element page. -/
theorem get_session_history_spec_w :
    get_session_history dbHist 1 1 = (get_session_history dbHist 1 2).take 1 :=
  (get_session_history_spec dbHist 1 1 2 (by decide)).2.2.2.1

/-- Claim C8 (amended): log_api_cost succeeds exactly when the referenced
session and event exist and the 32-bit token arithmetic does not
overflow; the token signs and the cost amount are never inspected, so
negative tokens and non-positive costs are accepted.  On success exactly
one cost row is appended, holding the arguments verbatim, and its id is
returned. -/
theorem log_api_cost_structural_only (db : DB) (sid eid : Nat) (sv : String)
    (md : Option String) (tin tout cost : Int) :
    ((log_api_cost db sid eid sv md tin tout cost).toOption.isSome
       = (inInt32 tin && inInt32 tout && inInt32 (tin + tout)
           && (sessionFor db sid).isSome && (eventFor db eid).isSome))
    ∧ (∀ cid db',
        log_api_cost db sid eid sv md tin tout cost = Except.ok (cid, db') →
        cid = db.nextId
        ∧ db'.costs = db.costs ++
            [{ id := db.nextId, session_id := sid, event_id := eid,
               service := sv, model := md, input_tokens := tin,
               output_tokens := tout, total_tokens := tin + tout,
               cost_usd := cost, created_at := db.now }]) := by
  constructor
  · cases h1 : inInt32 tin <;> cases h2 : inInt32 tout <;>
      cases h3 : inInt32 (tin + tout) <;>
      cases h4 : sessionFor db sid <;> cases h5 : eventFor db eid <;>
      simp [log_api_cost, Except.toOption, h1, h2, h3, h4, h5]
  · intro cid db' h
    simp only [log_api_cost] at h
    split at h
    · exact Except.noConfusion h
    · split at h
      · exact Except.noConfusion h
      · split at h
        · exact Except.noConfusion h
        · exact Except.noConfusion h
        · injection h with h'
          rw [Prod.mk.injEq] at h'
          obtain ⟨hcid, hdb⟩ := h'
          refine ⟨hcid.symm, ?_⟩
          rw [← hdb]

/-- Witness for claim C8: the concrete call of the counterexample, with
negative input tokens and a zero cost, succeeds. -/
theorem log_api_cost_structural_only_w :
    (log_api_cost dbCost 1 10 "openai_completion" none (-1) 0 0).toOption.isSome
      = true := by
  rw [(log_api_cost_structural_only dbCost 1 10 "openai_completion"
    none (-1) 0 0).1]
  decide

/-- Claim C9 (amended): the agent console leaves its pending list
untouched on an escalation_removed message (the type falls to the default
branch of the onmessage switch), and the only removal it performs is the
local one after its own successful takeover request, which removes every
entry with the taken session id from its own list. -/
theorem client_removal_behavior :
    (∀ (st : AgentClient) (lp : List Escalation) (ep : Option Escalation)
        (sp : Option Nat),
      handleWsMessage st
        { type := "escalation_removed", listPayload := lp,
          escPayload := ep, sidPayload := sp } = st)
    ∧ (∀ (st : AgentClient) (sid : Nat),
        (removeAfterTakeover st sid).escalations.all
          (fun e => !(e.session_id == sid)) = true) := by
  constructor
  · intro st lp ep sp
    rfl
  · intro st sid
    simp only [removeAfterTakeover, List.all_eq_true]
    intro e he
    exact (List.mem_filter.mp he).2

/-- Claim C10: whenever log_api_cost succeeds, the single appended cost
row stores total_tokens equal to the exact integer sum of the input and
output token arguments. -/
theorem log_api_cost_total_tokens (db : DB) (sid eid : Nat) (sv : String)
    (md : Option String) (tin tout cost : Int) (cid : Nat) (db' : DB)
    (h : log_api_cost db sid eid sv md tin tout cost = Except.ok (cid, db')) :
    ∃ row : CostRow, db'.costs = db.costs ++ [row]
      ∧ row.total_tokens = row.input_tokens + row.output_tokens
      ∧ row.input_tokens = tin ∧ row.output_tokens = tout
      ∧ row.total_tokens = tin + tout := by
  simp only [log_api_cost] at h
  split at h
  · exact Except.noConfusion h
  · split at h
    · exact Except.noConfusion h
    · split at h
      · exact Except.noConfusion h
      · exact Except.noConfusion h
      · injection h with h'
        rw [Prod.mk.injEq] at h'
        obtain ⟨hcid, hdb⟩ := h'
        refine ⟨{ id := db.nextId, session_id := sid, event_id := eid,
                  service := sv, model := md, input_tokens := tin,
                  output_tokens := tout, total_tokens := tin + tout,
                  cost_usd := cost, created_at := db.now },
          ?_, rfl, rfl, rfl, rfl⟩
        rw [← hdb]

/-- Witness for claim C10: on the concrete successful call recorded in
costOut, the appended row satisfies the total-token equation. -/
theorem log_api_cost_total_tokens_w :
    ∃ row : CostRow, costOut.2.costs = dbCost.costs ++ [row]
      ∧ row.total_tokens = row.input_tokens + row.output_tokens
      ∧ row.input_tokens = 3 ∧ row.output_tokens = 4
      ∧ row.total_tokens = 3 + 4 :=
  log_api_cost_total_tokens dbCost 1 10 "openai_completion" (some "gpt-4")
    3 4 5 costOut.1 costOut.2 (by rfl)

end ChatCore
